import Mathlib

/-
  Verification of the people-picker pane (src/src/widgets/peoplePicker.js).

  Shallow embedding: the rdflib statement store `kb` is a list of quads
  (subject, predicate, object, graph); asynchronous fetch outcomes are
  explicit boolean/except parameters; DOM rendering is out of scope, but the
  user-visible callback invocations and inline error blocks are recorded as
  values.  Each definition mirrors the corresponding source function.
-/

/-- An RDF term as used by the widget: rdflib named nodes and literals.
rdflib equality (`equals`) compares term kind and value, which matches
structural equality here. -/
inductive Term where
  | namedNode (value : String)
  | literal (value : String)
deriving DecidableEq, Repr

/-- The `.value` accessor of an rdflib term. -/
def Term.value : Term → String
  | .namedNode v => v
  | .literal v => v

/-- A statement (quad) in the store: rdflib `st(subject, predicate, object, why)`
where `why` is the graph / provenance tag. -/
structure Statement where
  subject : Term
  predicate : Term
  object : Term
  why : Term
deriving DecidableEq, Repr

/-- The in-memory store `kb` (rdflib IndexedFormula), modelled as the ordered
list of its statements. -/
abbrev Store := List Statement

/-- Wildcardable position of a match pattern: `none` is the JS `null`/missing
argument wildcard. -/
def termMatches (pat : Option Term) (t : Term) : Bool :=
  match pat with
  | none => true
  | some p => p == t

/-- Model of `kb.statementsMatching(s, p, o, w)` (also `kb.match`): all statements
matching the pattern, in store order.  Missing trailing arguments in the JS
calls are wildcards. -/
def statementsMatching (kb : Store) (s p o g : Option Term) : List Statement :=
  kb.filter fun st =>
    termMatches s st.subject && termMatches p st.predicate &&
    termMatches o st.object && termMatches g st.why

/-- Model of `kb.any(s, p)`: the object of some (the first) statement matching
`(s, p, *, *)`, or `undefined`. -/
def kbAny (kb : Store) (s p : Term) : Option Term :=
  (statementsMatching kb (some s) (some p) none none).head?.map (·.object)

/-- Model of `kb.add(s, p, o, why)`: append a single statement to the store. -/
def kbAddQuad (kb : Store) (s p o g : Term) : Store :=
  kb ++ [⟨s, p, o, g⟩]

/-- Model of `kb.add([st1, st2, ...])`: append a list of statements to the store. -/
def kbAddAll (kb : Store) (sts : List Statement) : Store :=
  kb ++ sts

/-- Model of `kb.remove(st)` (rdflib): removes the statement if present, otherwise
throws ("Statement to be removed is not on store"). -/
def kbRemove (kb : Store) (st : Statement) : Except String Store :=
  if st ∈ kb then .ok (kb.erase st) else .error "Statement to be removed is not on store"

/-- The `ns` namespace registry entries used by the widget (solid-ui `ns`). -/
def ns.solid (label : String) : Term :=
  .namedNode ("http://www.w3.org/ns/solid/terms#" ++ label)

/-- vcard namespace. -/
def ns.vcard (label : String) : Term :=
  .namedNode ("http://www.w3.org/2006/vcard/ns#" ++ label)

/-- rdf namespace. -/
def ns.rdf (label : String) : Term :=
  .namedNode ("http://www.w3.org/1999/02/22-rdf-syntax-ns#" ++ label)

/-- foaf namespace. -/
def ns.foaf (label : String) : Term :=
  .namedNode ("http://xmlns.com/foaf/0.1/" ++ label)

example : termMatches none (Term.literal "x") = true := by decide

example :
    statementsMatching
      [⟨.namedNode "a", ns.vcard "fn", .literal "G", .namedNode "g"⟩]
      (some (.namedNode "a")) (some (ns.vcard "fn")) none none =
      [⟨.namedNode "a", ns.vcard "fn", .literal "G", .namedNode "g"⟩] := by decide

/-! ## GroupLocator: findGroupIndex -/

/-- The pattern of the regex `book\.ttl(#.*)?$` used at line 118. -/
def bookPat : List Char := "book.ttl".toList

/-- Characters matched by the regex metacharacter `.` in JS (everything but
line terminators). -/
def regexDotChar (c : Char) : Bool :=
  c != Char.ofNat 10 && c != Char.ofNat 13 &&
  c != Char.ofNat 0x2028 && c != Char.ofNat 0x2029

/-- Whether the regex `book\.ttl(#.*)?$` matches the string `cs` at index `i`:
the literal `book.ttl` occurs at `i`, and what follows is either the end of
the string or a `#` followed by line-terminator-free text running to the end. -/
def bookMatchAt (cs : List Char) (i : Nat) : Bool :=
  ((cs.drop i).take 8 == bookPat) &&
    (match cs.drop (i + 8) with
     | [] => true
     | c :: rest => c == '#' && rest.all regexDotChar)

/-- Index of the leftmost regex match, if any (JS `String.replace` uses the
leftmost match). -/
def bookMatchIndex (cs : List Char) : Option Nat :=
  (List.range cs.length).find? (fun i => bookMatchAt cs i)

/-- Model of `bookUrl.replace` with the anchored regex at line 118: any match of this anchored
regex extends to the end of the string, so replacing it by the empty string
truncates at the match position; with no match the string is unchanged. -/
def stripBookTtl (s : String) : String :=
  match bookMatchIndex s.data with
  | none => s
  | some i => ⟨s.data.take i⟩

/-- The triple resolved by `findGroupIndex`. -/
structure GroupIndexInfo where
  bookBaseUrl : String
  groupIndexUrl : String
  groupContainerUrl : String
deriving DecidableEq, Repr

/-- Line 102: `kb.statementsMatching(null, ns.solid('forClass'), ns.vcard('AddressBook'))`. -/
def bookRegistrations (kb : Store) : List Statement :=
  statementsMatching kb none (some (ns.solid "forClass")) (some (ns.vcard "AddressBook")) none

/-- Lines 109-112: `kb.statementsMatching(registrationSubject, ns.solid('instance'))`. -/
def instanceStatements (kb : Store) (registrationSubject : Term) : List Statement :=
  statementsMatching kb (some registrationSubject) (some (ns.solid "instance")) none none

/-- Model of `PeoplePicker.findGroupIndex`, lines 96-124, after the type-index fetch
has succeeded: the resolution logic run against the store.  The JS settles
the promise with `reject`/`resolve`; we model the settled outcome.
(At line 113 the JS `reject` lacks a `return`; the subsequent statement then
throws on the empty array, but the promise is already settled as rejected,
which is the modelled outcome.) -/
def PeoplePicker.findGroupIndexAfterFetch (kb : Store) : Except String GroupIndexInfo :=
  match bookRegistrations kb with
  | [] => .error "no address book registered in the solid type index"
  | reg :: _ =>
    match instanceStatements kb reg.subject with
    | [] => .error "incomplete address book registration"
    | inst :: _ =>
      let bookUrl := inst.object.value
      let bookBaseUrl := stripBookTtl bookUrl
      .ok { bookBaseUrl := bookBaseUrl
            groupIndexUrl := bookBaseUrl ++ "groups.ttl"
            groupContainerUrl := bookBaseUrl ++ "Group/" }

/-- The whole of `findGroupIndex` including its single fetch
(`kb.fetcher.nowOrWhenFetched(typeIndexUrl, ...)`): the settled outcome
together with the list of resource URLs the function fetches.  The only
fetch it ever performs is the type-index fetch. -/
def PeoplePicker.findGroupIndexRun (fetchOk : Bool) (fetchErr : String) (kb : Store)
    (typeIndexUrl : String) : Except String GroupIndexInfo × List String :=
  if fetchOk then
    (PeoplePicker.findGroupIndexAfterFetch kb, [typeIndexUrl])
  else
    (.error fetchErr, [typeIndexUrl])

/-! ## GroupLocator: createNewGroup -/

/-- One `webClient.patch(url, toDelete, toInsert)` call. -/
structure PatchCall where
  url : String
  toDelete : List Statement
  toInsert : List Statement
deriving DecidableEq, Repr

/-- The error thrown at line 144 on PATCH failure; it names the failing
request's response URL.  (The JS message text is
"Couldn't create new group.  PATCH failed for (<url>)".) -/
inductive CreateGroupErr where
  | patchFailed (responseURL : String)
deriving DecidableEq, Repr

/-- Model of `PeoplePicker.createNewGroup`, lines 126-146.  `uuid` stands for the
string returned by `uuid.v4()`; `patchOutcome url` is the outcome of the
PATCH request against `url`.  Because the two promises are created eagerly
by `.map` before `Promise.all` inspects any outcome, both PATCH calls are
issued on every execution; they are returned in array order as
`patchesAttempted`.  Each patch mirrors its statements into `kb` on its own
success (line 139).  `Promise.all` rejects as soon as any promise rejects;
with a single failure the rejection carries that request, modelled here by
the first failing patch in array order. -/
def PeoplePicker.createNewGroup (bookBaseUrl uuid : String)
    (patchOutcome : String → Except String Unit) (kb : Store) :
    Except CreateGroupErr (Term × Term) × List PatchCall × Store :=
  let groupIndexNode := Term.namedNode (bookBaseUrl ++ "groups.ttl")
  let graphUrl := bookBaseUrl ++ "Group/" ++ uuid.take 8 ++ ".ttl"
  let groupGraphNode := Term.namedNode graphUrl
  let groupNode := Term.namedNode (graphUrl ++ "#this")
  let namedGraphs := [groupGraphNode, groupIndexNode]
  let patches := namedGraphs.map fun namedGraph =>
    { url := namedGraph.value
      toDelete := []
      toInsert := [⟨groupNode, ns.rdf "type", ns.vcard "Group", namedGraph⟩,
                   ⟨groupNode, ns.vcard "fn", .literal "Untitled Group", namedGraph⟩] }
  let kbAfter := patches.foldl
    (fun acc patch =>
      match patchOutcome patch.url with
      | .ok _ => kbAddAll acc patch.toInsert
      | .error _ => acc) kb
  let failed := patches.filter fun patch => !(patchOutcome patch.url).isOk
  let result : Except CreateGroupErr (Term × Term) :=
    match failed with
    | [] => .ok (groupNode, groupGraphNode)
    | f :: _ => .error (.patchFailed f.url)
  (result, patches, kbAfter)

example :
    (PeoplePicker.findGroupIndexRun false "err" [] "https://x/ti.ttl") =
      (.error "err", ["https://x/ti.ttl"]) := rfl

example : stripBookTtl "https://example.org/profile/book.ttl" = "https://example.org/profile/" := by decide

example : stripBookTtl "https://example.org/profile/book.ttl#this" = "https://example.org/profile/" := by decide

example : stripBookTtl "https://example.org/other.ttl" = "https://example.org/other.ttl" := by decide

/-! ## GroupEditor (GroupBuilder) -/

/-- The change-kind tag passed to the group-changed callback. -/
inductive ChangeType where
  | added
  | removed
deriving DecidableEq, Repr

/-- One invocation of `onGroupChanged(err, changeType, agent)` (lines
231-235): the JS calls it with one argument on fetch failure and with
`(null, tag, node)` otherwise, modelled by `Option`s. -/
structure ChangedEvent where
  err : Option String
  change : Option ChangeType
  agent : Option Term
deriving DecidableEq, Repr

/-- Outcome of one `GroupBuilder.add` run: the store afterwards, the
group-changed callback invocations in order, and the settled promise. -/
structure AddResult where
  kb : Store
  events : List ChangedEvent
  result : Except String Term
deriving Repr

/-- Line 312-313's validity check: `!rdfClass || !rdfClass.equals(ns.foaf('Person'))`,
where `rdfClass = kb.any(webIdNode, ns.rdf('type'))`. -/
def typeCheckFails (kb : Store) (webIdNode : Term) : Bool :=
  match kbAny kb webIdNode (ns.rdf "type") with
  | none => true
  | some c => c != ns.foaf "Person"

/-- The membership statement built at line 317. -/
def memberStatement (groupNode webIdNode groupGraph : Term) : Statement :=
  ⟨groupNode, ns.vcard "hasMember", webIdNode, groupGraph⟩

/-- Model of `GroupBuilder.add(webId)`, lines 302-328.  `fetchOk`/`fetchErr` are the
outcome of `kb.fetcher.nowOrWhenFetched(webId, ...)`; `kb` is the store once
that fetch has settled (on success, with whatever the fetch loaded).
A promise settles with its first `reject`/`resolve`: when the type check
fails the `reject` at line 314 wins, but — the branch not returning —
execution continues, so the membership statement is still added (line 319)
and the callback at line 322 still fires. -/
def GroupBuilder.add (groupGraph groupNode : Term) (kb : Store) (webId : String)
    (fetchOk : Bool) (fetchErr : String) : AddResult :=
  if !fetchOk then
    { kb := kb
      events := [⟨some fetchErr, none, none⟩]
      result := .error fetchErr }
  else
    let webIdNode := Term.namedNode webId
    let statement := memberStatement groupNode webIdNode groupGraph
    let kbAfter :=
      if (statementsMatching kb (some statement.subject) (some statement.predicate)
            (some statement.object) (some statement.why)).length < 1 then
        kbAddQuad kb statement.subject statement.predicate statement.object statement.why
      else
        kb
    { kb := kbAfter
      events := [⟨none, some .added, some webIdNode⟩]
      result :=
        if typeCheckFails kb webIdNode then
          .error "Only people supported right now"
        else
          .ok webIdNode }

/-- The inline error text chosen at lines 337-342 when a removal fails:
names the member by `foaf:name` when that resolves to a truthy (non-empty)
value, else by the raw identifier. -/
def removeErrorText (kb : Store) (webIdNode : Term) : String :=
  match kbAny kb webIdNode (ns.foaf "name") with
  | some n => if n.value ≠ "" then "Could not remove " ++ n.value else "Could not remove " ++ webIdNode.value
  | none => "Could not remove " ++ webIdNode.value

/-- Outcome of one click of the handler returned by `GroupBuilder.handleRemove`
(lines 330-347): the store afterwards, the callback invocations, and the
inline error block rendered in the catch branch, if any. -/
structure RemoveResult where
  kb : Store
  events : List ChangedEvent
  errorBlock : Option String
deriving Repr

/-- Model of the click handler returned by `GroupBuilder.handleRemove(webIdNode)`, lines 330-347:
tries `kb.remove` on the membership statement; on success fires the
callback with `(null, 'removed', webIdNode)`; on a thrown remove error
renders an inline error block naming the member and leaves the store as it
was.  Either way it re-renders (render has no store effect). -/
def GroupBuilder.handleRemove (groupGraph groupNode : Term) (kb : Store)
    (webIdNode : Term) : RemoveResult :=
  match kbRemove kb (memberStatement groupNode webIdNode groupGraph) with
  | .ok kbAfter =>
    { kb := kbAfter
      events := [⟨none, some .removed, some webIdNode⟩]
      errorBlock := none }
  | .error _ =>
    { kb := kb
      events := []
      errorBlock := some (removeErrorText kb webIdNode) }

/-- Model of `GroupBuilder.setGroupName(name)`, lines 349-355: iterate over the
snapshot `kb.match(this.groupNode, ns.vcard('fn'))`; for each statement in
it, remove it from the store and add
`(groupNode, vcard:fn, literal(name), st.why)`.  `kb.remove` never throws
here because every snapshot statement is still present when its turn comes
(proved below), so it is modelled by `List.erase`. -/
def GroupBuilder.setGroupName (kb : Store) (groupNode : Term) (name : String) : Store :=
  (statementsMatching kb (some groupNode) (some (ns.vcard "fn")) none none).foldl
    (fun acc st => acc.erase st ++ [⟨groupNode, ns.vcard "fn", Term.literal name, st.why⟩])
    kb

/-! ## GroupSelector (GroupPicker) -/

/-- Model of `GroupPicker.loadGroups`, lines 187-200: after the group-index fetch
settles, on success collect the objects of all statements matching
`(namedNode(bookBaseUrl + 'book.ttl#this'), vcard:includesGroup, *, *)`,
in store order; on failure reject with the fetch error. -/
def GroupPicker.loadGroups (fetchOk : Bool) (fetchErr : String) (kb : Store)
    (bookBaseUrl : String) : Except String (List Term) :=
  if !fetchOk then
    .error fetchErr
  else
    .ok ((statementsMatching kb
            (some (Term.namedNode (bookBaseUrl ++ "book.ttl#this")))
            (some (ns.vcard "includesGroup")) none none).map (·.object))

/-! ## Helper lemmas about the store operations -/

lemma statementsMatching_exact (kb : Store) (q : Statement) :
    statementsMatching kb (some q.subject) (some q.predicate) (some q.object) (some q.why) =
      kb.filter (fun st => st == q) := by
  unfold statementsMatching termMatches
  apply List.filter_congr
  intro st _
  cases st
  cases q
  rw [Bool.eq_iff_iff]
  simp only [Bool.and_eq_true, beq_iff_eq, Statement.mk.injEq]
  constructor
  · rintro ⟨⟨⟨h1, h2⟩, h3⟩, h4⟩
    exact ⟨h1.symm, h2.symm, h3.symm, h4.symm⟩
  · rintro ⟨h1, h2, h3, h4⟩
    exact ⟨⟨⟨h1.symm, h2.symm⟩, h3.symm⟩, h4.symm⟩

lemma statementsMatching_exact_length (kb : Store) (q : Statement) :
    (statementsMatching kb (some q.subject) (some q.predicate) (some q.object) (some q.why)).length
      = kb.count q := by
  rw [statementsMatching_exact]
  simp [List.count, List.countP_eq_length_filter]

lemma statementsMatching_append (a b : Store) (s p o g : Option Term) :
    statementsMatching (a ++ b) s p o g =
      statementsMatching a s p o g ++ statementsMatching b s p o g := by
  simp [statementsMatching]

lemma add_member_count (groupGraph groupNode : Term) (kb : Store) (webId fetchErr : String) :
    ((GroupBuilder.add groupGraph groupNode kb webId true fetchErr).kb).count
        (memberStatement groupNode (.namedNode webId) groupGraph)
      = max (kb.count (memberStatement groupNode (.namedNode webId) groupGraph)) 1 := by
  have hlen : (statementsMatching kb (some groupNode) (some (ns.vcard "hasMember"))
      (some (Term.namedNode webId)) (some groupGraph)).length
      = kb.count (memberStatement groupNode (.namedNode webId) groupGraph) :=
    statementsMatching_exact_length kb (memberStatement groupNode (.namedNode webId) groupGraph)
  by_cases hc : kb.count (memberStatement groupNode (.namedNode webId) groupGraph) = 0
  · have hnil : statementsMatching kb (some groupNode) (some (ns.vcard "hasMember"))
        (some (Term.namedNode webId)) (some groupGraph) = [] := by
      apply List.eq_nil_of_length_eq_zero
      omega
    have hc2 : List.count
        ({ subject := groupNode, predicate := ns.vcard "hasMember",
           object := Term.namedNode webId, why := groupGraph } : Statement) kb = 0 := hc
    simp [GroupBuilder.add, memberStatement, hnil, kbAddQuad, List.count_append,
      List.count_cons, hc2]
  · have hne : statementsMatching kb (some groupNode) (some (ns.vcard "hasMember"))
        (some (Term.namedNode webId)) (some groupGraph) ≠ [] := by
      intro he
      rw [he] at hlen
      simp at hlen
      omega
    have h1 : 1 ≤ kb.count (memberStatement groupNode (.namedNode webId) groupGraph) := by
      omega
    have hc2 : List.count
        ({ subject := groupNode, predicate := ns.vcard "hasMember",
           object := Term.namedNode webId, why := groupGraph } : Statement) kb ≠ 0 := hc
    simp [GroupBuilder.add, memberStatement, hne, Nat.max_eq_left h1]
    exact List.count_pos_iff.mp (by omega)

/-! ## Claim theorems -/

/-- Claim C5: for every type-index document containing no registration
statement whose object is class AddressBook, `findGroupIndex` fails with the
missing-address-book error, performs no fetch other than the type-index
fetch (in particular no group-index fetch), and derives no group-index
URL. -/
theorem findGroupIndex_no_address_book (kb : Store) (typeIndexUrl fetchErr : String)
    (h : bookRegistrations kb = []) :
    PeoplePicker.findGroupIndexRun true fetchErr kb typeIndexUrl =
      (.error "no address book registered in the solid type index", [typeIndexUrl]) := by
  simp [PeoplePicker.findGroupIndexRun, PeoplePicker.findGroupIndexAfterFetch, h]

/-- Witness for C5: a concrete store with no AddressBook registration. -/
theorem findGroupIndex_no_address_book_witness :
    bookRegistrations [⟨.namedNode "https://x/i#r", ns.solid "forClass",
        .namedNode "https://x/Other", .namedNode "https://x/i"⟩] = [] ∧
      PeoplePicker.findGroupIndexRun true "e"
          [⟨.namedNode "https://x/i#r", ns.solid "forClass",
            .namedNode "https://x/Other", .namedNode "https://x/i"⟩] "https://x/i" =
        (.error "no address book registered in the solid type index", ["https://x/i"]) :=
  ⟨by decide, findGroupIndex_no_address_book _ _ _ (by decide)⟩

/-- Claim C7: for every base URL, `createNewGroup` issues its first PATCH
against the generated group resource URL
`base + 'Group/' + uuid.take 8 + '.ttl'` (and its second against the group
index), and when both PATCHes succeed it resolves with the group node being
that URL plus the fragment `#this` and the graph node being that URL. -/
theorem createNewGroup_url_shape (bookBaseUrl uuid : String)
    (patchOutcome : String → Except String Unit) (kb : Store) :
    (PeoplePicker.createNewGroup bookBaseUrl uuid patchOutcome kb).2.1.map PatchCall.url =
        [bookBaseUrl ++ "Group/" ++ uuid.take 8 ++ ".ttl", bookBaseUrl ++ "groups.ttl"] ∧
      (PeoplePicker.createNewGroup bookBaseUrl uuid (fun _ => .ok ()) kb).1 =
        .ok (Term.namedNode (bookBaseUrl ++ "Group/" ++ uuid.take 8 ++ ".ttl" ++ "#this"),
             Term.namedNode (bookBaseUrl ++ "Group/" ++ uuid.take 8 ++ ".ttl")) := by
  constructor
  · simp [PeoplePicker.createNewGroup, Term.value]
  · simp [PeoplePicker.createNewGroup, Term.value, Except.isOk, Except.toBool]

/-- Claim C9: after a successful group-index fetch, `loadGroups` resolves
with exactly the objects of the `includesGroup` statements whose subject is
the address book root node `base + 'book.ttl#this'`, in store-encounter
order. -/
theorem loadGroups_store_order (fetchErr : String) (kb : Store) (bookBaseUrl : String) :
    GroupPicker.loadGroups true fetchErr kb bookBaseUrl =
      .ok ((kb.filter fun st =>
              st.subject == Term.namedNode (bookBaseUrl ++ "book.ttl#this") &&
              st.predicate == ns.vcard "includesGroup").map (·.object)) := by
  simp only [GroupPicker.loadGroups, Bool.not_true, Bool.false_eq_true, if_false,
    statementsMatching, Except.ok.injEq]
  congr 1
  apply List.filter_congr
  intro st _
  rw [Bool.eq_iff_iff]
  simp only [termMatches, Bool.and_true, Bool.and_eq_true, beq_iff_eq]
  constructor
  · rintro ⟨h1, h2⟩
    exact ⟨h1.symm, h2.symm⟩
  · rintro ⟨h1, h2⟩
    exact ⟨h1.symm, h2.symm⟩

/-- Claim C1 (refuting evaluation): with the PATCH against the group's own
graph resource failing and the index PATCH succeeding, `createNewGroup`
still attempts both PATCH calls — the group-index PATCH is issued even
though the own-graph PATCH fails, because both promises are created eagerly
before `Promise.all` runs — while the rejection does name the first
resource's URL. -/
theorem createNewGroup_attempts_index_patch_after_own_failure :
    ((PeoplePicker.createNewGroup "https://example.org/profile/" "abcdef12-3456-7890"
        (fun u => if u = "https://example.org/profile/Group/abcdef12.ttl" then
                    .error "500" else .ok ()) []).2.1.map PatchCall.url =
      ["https://example.org/profile/Group/abcdef12.ttl",
       "https://example.org/profile/groups.ttl"]) ∧
    (PeoplePicker.createNewGroup "https://example.org/profile/" "abcdef12-3456-7890"
        (fun u => if u = "https://example.org/profile/Group/abcdef12.ttl" then
                    .error "500" else .ok ()) []).1 =
      .error (.patchFailed "https://example.org/profile/Group/abcdef12.ttl") := by
  constructor
  · rfl
  · rfl

/-- Claim C2: when the fetched identifier resource does not declare type
`foaf:Person`, the returned operation rejects with the unsupported-entity
error, yet the membership statement is in the store afterwards regardless —
the type check's outcome does not gate the mutation (the `reject` at line
314 does not return, so lines 317-322 still run). -/
theorem add_type_check_does_not_gate_mutation (groupGraph groupNode : Term) (kb : Store)
    (webId fetchErr : String)
    (h : typeCheckFails kb (Term.namedNode webId) = true) :
    (GroupBuilder.add groupGraph groupNode kb webId true fetchErr).result =
        .error "Only people supported right now" ∧
      memberStatement groupNode (Term.namedNode webId) groupGraph ∈
        (GroupBuilder.add groupGraph groupNode kb webId true fetchErr).kb := by
  constructor
  · simp [GroupBuilder.add, h]
  · by_cases hmem : memberStatement groupNode (Term.namedNode webId) groupGraph ∈ kb
    · have h1 : 1 ≤ kb.count (memberStatement groupNode (.namedNode webId) groupGraph) :=
        List.count_pos_iff.mpr hmem
      have := add_member_count groupGraph groupNode kb webId fetchErr
      rw [Nat.max_eq_left h1] at this
      exact List.count_pos_iff.mp (by omega)
    · have := add_member_count groupGraph groupNode kb webId fetchErr
      exact List.count_pos_iff.mp (by omega)

/-- Witness for C2: a store where the identifier's resource declares type
`foaf:Organization`, not `foaf:Person`. -/
theorem add_type_check_does_not_gate_mutation_witness :
    typeCheckFails [⟨.namedNode "https://bob.example/profile#me", ns.rdf "type",
        ns.foaf "Organization", .namedNode "https://bob.example/profile"⟩]
      (Term.namedNode "https://bob.example/profile#me") = true ∧
    ((GroupBuilder.add (.namedNode "https://g.example/Group/x.ttl")
          (.namedNode "https://g.example/Group/x.ttl#this")
          [⟨.namedNode "https://bob.example/profile#me", ns.rdf "type",
            ns.foaf "Organization", .namedNode "https://bob.example/profile"⟩]
          "https://bob.example/profile#me" true "e").result =
        .error "Only people supported right now" ∧
      memberStatement (.namedNode "https://g.example/Group/x.ttl#this")
          (Term.namedNode "https://bob.example/profile#me")
          (.namedNode "https://g.example/Group/x.ttl") ∈
        (GroupBuilder.add (.namedNode "https://g.example/Group/x.ttl")
          (.namedNode "https://g.example/Group/x.ttl#this")
          [⟨.namedNode "https://bob.example/profile#me", ns.rdf "type",
            ns.foaf "Organization", .namedNode "https://bob.example/profile"⟩]
          "https://bob.example/profile#me" true "e").kb) :=
  ⟨by decide, add_type_check_does_not_gate_mutation _ _ _ _ _ (by decide)⟩

/-- Claim C10: whenever the identifier fetch succeeds, the group-changed
callback fires with `(null, 'added', member)` — even when the member is
already in the group, so no new membership statement is added and the store
is unchanged; the callback does not distinguish the no-op case. -/
theorem add_fires_added_even_for_duplicate (groupGraph groupNode : Term) (kb : Store)
    (webId fetchErr : String)
    (h : memberStatement groupNode (Term.namedNode webId) groupGraph ∈ kb) :
    (GroupBuilder.add groupGraph groupNode kb webId true fetchErr).events =
        [⟨none, some .added, some (Term.namedNode webId)⟩] ∧
      (GroupBuilder.add groupGraph groupNode kb webId true fetchErr).kb = kb := by
  constructor
  · simp [GroupBuilder.add]
  · have h1 : 0 < kb.count (memberStatement groupNode (.namedNode webId) groupGraph) :=
      List.count_pos_iff.mpr h
    have hlen : (statementsMatching kb (some groupNode) (some (ns.vcard "hasMember"))
        (some (Term.namedNode webId)) (some groupGraph)).length
        = kb.count (memberStatement groupNode (.namedNode webId) groupGraph) :=
      statementsMatching_exact_length kb (memberStatement groupNode (.namedNode webId) groupGraph)
    have hne : statementsMatching kb (some groupNode) (some (ns.vcard "hasMember"))
        (some (Term.namedNode webId)) (some groupGraph) ≠ [] := by
      intro he
      rw [he] at hlen
      simp at hlen
      omega
    simp [GroupBuilder.add, memberStatement, hne]

/-- Witness for C10: Bob is already a member; the callback still reports an
addition and the store is untouched. -/
theorem add_fires_added_even_for_duplicate_witness :
    memberStatement (.namedNode "https://g.example/Group/x.ttl#this")
        (Term.namedNode "https://bob.example/profile#me")
        (.namedNode "https://g.example/Group/x.ttl") ∈
      ([⟨.namedNode "https://g.example/Group/x.ttl#this", ns.vcard "hasMember",
         .namedNode "https://bob.example/profile#me",
         .namedNode "https://g.example/Group/x.ttl"⟩] : Store) ∧
    ((GroupBuilder.add (.namedNode "https://g.example/Group/x.ttl")
          (.namedNode "https://g.example/Group/x.ttl#this")
          [⟨.namedNode "https://g.example/Group/x.ttl#this", ns.vcard "hasMember",
            .namedNode "https://bob.example/profile#me",
            .namedNode "https://g.example/Group/x.ttl"⟩]
          "https://bob.example/profile#me" true "e").events =
        [⟨none, some .added, some (Term.namedNode "https://bob.example/profile#me")⟩] ∧
      (GroupBuilder.add (.namedNode "https://g.example/Group/x.ttl")
          (.namedNode "https://g.example/Group/x.ttl#this")
          [⟨.namedNode "https://g.example/Group/x.ttl#this", ns.vcard "hasMember",
            .namedNode "https://bob.example/profile#me",
            .namedNode "https://g.example/Group/x.ttl"⟩]
          "https://bob.example/profile#me" true "e").kb =
        [⟨.namedNode "https://g.example/Group/x.ttl#this", ns.vcard "hasMember",
          .namedNode "https://bob.example/profile#me",
          .namedNode "https://g.example/Group/x.ttl"⟩]) :=
  ⟨by decide, add_fires_added_even_for_duplicate _ _ _ _ _ (by decide)⟩

/-- Claim C3: adding the same member identifier twice leaves exactly one
membership statement `(group, hasMember, member, graph)` in the store,
never two — the check-then-add at lines 318-321 makes the mutation
idempotent (stated for stores that do not already hold duplicated
membership statements, the only states this code produces). -/
theorem add_membership_idempotent (groupGraph groupNode : Term) (kb : Store)
    (webId fetchErr1 fetchErr2 : String)
    (h : kb.count (memberStatement groupNode (.namedNode webId) groupGraph) ≤ 1) :
    ((GroupBuilder.add groupGraph groupNode
        (GroupBuilder.add groupGraph groupNode kb webId true fetchErr1).kb
        webId true fetchErr2).kb).count
      (memberStatement groupNode (.namedNode webId) groupGraph) = 1 := by
  rw [add_member_count, add_member_count]
  omega

/-- Witness for C3: a store in which Bob is not yet a member; two adds leave
exactly one membership statement. -/
theorem add_membership_idempotent_witness :
    ([] : Store).count
        (memberStatement (.namedNode "https://g.example/Group/x.ttl#this")
          (.namedNode "https://bob.example/profile#me")
          (.namedNode "https://g.example/Group/x.ttl")) ≤ 1 ∧
    ((GroupBuilder.add (.namedNode "https://g.example/Group/x.ttl")
        (.namedNode "https://g.example/Group/x.ttl#this")
        (GroupBuilder.add (.namedNode "https://g.example/Group/x.ttl")
          (.namedNode "https://g.example/Group/x.ttl#this") []
          "https://bob.example/profile#me" true "e1").kb
        "https://bob.example/profile#me" true "e2").kb).count
      (memberStatement (.namedNode "https://g.example/Group/x.ttl#this")
        (.namedNode "https://bob.example/profile#me")
        (.namedNode "https://g.example/Group/x.ttl")) = 1 :=
  ⟨by decide, add_membership_idempotent _ _ _ _ _ _ (by decide)⟩

/-- Claim C8: invoking the remove handler for a member with no membership
statement in the group's graph renders an inline remove-failure error naming
the member and leaves the statement store unchanged (and fires no
removed-callback). -/
theorem handleRemove_absent_member (groupGraph groupNode : Term) (kb : Store)
    (webIdNode : Term)
    (h : memberStatement groupNode webIdNode groupGraph ∉ kb) :
    GroupBuilder.handleRemove groupGraph groupNode kb webIdNode =
      { kb := kb, events := [], errorBlock := some (removeErrorText kb webIdNode) } := by
  simp [GroupBuilder.handleRemove, kbRemove, h]

/-- Witness for C8: removing Bob from a group he is not in; the store holds
only his profile name, which the inline error then uses. -/
theorem handleRemove_absent_member_witness :
    memberStatement (.namedNode "https://g.example/Group/x.ttl#this")
        (.namedNode "https://bob.example/profile#me")
        (.namedNode "https://g.example/Group/x.ttl") ∉
      ([⟨.namedNode "https://bob.example/profile#me", ns.foaf "name",
         .literal "Bob", .namedNode "https://bob.example/profile"⟩] : Store) ∧
    GroupBuilder.handleRemove (.namedNode "https://g.example/Group/x.ttl")
        (.namedNode "https://g.example/Group/x.ttl#this")
        [⟨.namedNode "https://bob.example/profile#me", ns.foaf "name",
          .literal "Bob", .namedNode "https://bob.example/profile"⟩]
        (.namedNode "https://bob.example/profile#me") =
      { kb := [⟨.namedNode "https://bob.example/profile#me", ns.foaf "name",
               .literal "Bob", .namedNode "https://bob.example/profile"⟩]
        events := []
        errorBlock := some (removeErrorText
          [⟨.namedNode "https://bob.example/profile#me", ns.foaf "name",
            .literal "Bob", .namedNode "https://bob.example/profile"⟩]
          (.namedNode "https://bob.example/profile#me")) } :=
  ⟨by decide, handleRemove_absent_member _ _ _ _ (by decide)⟩

example :
    removeErrorText
      [⟨.namedNode "https://bob.example/profile#me", ns.foaf "name",
        .literal "Bob", .namedNode "https://bob.example/profile"⟩]
      (.namedNode "https://bob.example/profile#me") = "Could not remove Bob" := by decide

lemma find?_range_eq_some (p : Nat → Bool) (n i : Nat) (hi : i < n) (hpi : p i = true)
    (hlt : ∀ j, j < i → p j = false) : (List.range n).find? p = some i := by
  obtain ⟨k, rfl⟩ : ∃ k, n = i + (k + 1) := ⟨n - i - 1, by omega⟩
  rw [List.range_add, List.find?_append]
  have h1 : (List.range i).find? p = none := by
    rw [List.find?_eq_none]
    intro j hj
    rw [List.mem_range] at hj
    simp [hlt j hj]
  have h2 : (List.range (k + 1)).map (i + ·) = i :: (List.map Nat.succ (List.range k)).map (i + ·) := by
    rw [List.range_succ_eq_map]
    simp
  rw [h1, h2, List.find?_cons_of_pos _ hpi]
  rfl

lemma bookMatchAt_whole (b : String) :
    bookMatchAt (b ++ "book.ttl").data b.data.length = true := by
  unfold bookMatchAt
  rw [String.data_append]
  have hdrop : (b.data ++ "book.ttl".data).drop b.data.length = "book.ttl".data :=
    List.drop_left _ _
  have hdrop2 : (b.data ++ "book.ttl".data).drop (b.data.length + 8) = [] := by
    apply List.drop_of_length_le
    simp
  rw [hdrop, hdrop2]
  decide

lemma bookMatchAt_fragment (b f : String) (hf : f.data.all regexDotChar = true) :
    bookMatchAt (b ++ ("book.ttl#" ++ f)).data b.data.length = true := by
  unfold bookMatchAt
  rw [String.data_append, String.data_append]
  have h9 : "book.ttl#".data = bookPat ++ ['#'] := by decide
  have hflat : b.data ++ ("book.ttl#".data ++ f.data) = b.data ++ (bookPat ++ ('#' :: f.data)) := by
    rw [h9, List.append_assoc]
    rfl
  rw [hflat]
  have hdrop : (b.data ++ (bookPat ++ ('#' :: f.data))).drop b.data.length =
      bookPat ++ ('#' :: f.data) :=
    List.drop_left _ _
  have hdrop2 : (b.data ++ (bookPat ++ ('#' :: f.data))).drop (b.data.length + 8) =
      '#' :: f.data := by
    have hassoc : b.data ++ (bookPat ++ ('#' :: f.data)) =
        (b.data ++ bookPat) ++ ('#' :: f.data) := by
      rw [List.append_assoc]
    rw [hassoc]
    apply List.drop_left'
    simp [bookPat]
  rw [hdrop, hdrop2]
  have htake : (bookPat ++ ('#' :: f.data)).take 8 = bookPat := by
    apply List.take_left'
    decide
  rw [htake]
  simp [hf]

lemma stripBookTtl_whole (b : String)
    (hleft : ∀ j, j < b.data.length → bookMatchAt (b ++ "book.ttl").data j = false) :
    stripBookTtl (b ++ "book.ttl") = b := by
  unfold stripBookTtl bookMatchIndex
  have hfind : (List.range (b ++ "book.ttl").data.length).find?
      (fun i => bookMatchAt (b ++ "book.ttl").data i) = some b.data.length := by
    apply find?_range_eq_some
    · simp
    · exact bookMatchAt_whole b
    · exact hleft
  rw [hfind]
  show String.mk ((b ++ "book.ttl").data.take b.data.length) = b
  have htake : (b ++ "book.ttl").data.take b.data.length = b.data := by
    rw [String.data_append]
    exact List.take_left _ _
  rw [htake]

lemma stripBookTtl_fragment (b f : String) (hf : f.data.all regexDotChar = true)
    (hleft : ∀ j, j < b.data.length → bookMatchAt (b ++ ("book.ttl#" ++ f)).data j = false) :
    stripBookTtl (b ++ ("book.ttl#" ++ f)) = b := by
  unfold stripBookTtl bookMatchIndex
  have hfind : (List.range (b ++ ("book.ttl#" ++ f)).data.length).find?
      (fun i => bookMatchAt (b ++ ("book.ttl#" ++ f)).data i) = some b.data.length := by
    apply find?_range_eq_some
    · simp
    · exact bookMatchAt_fragment b f hf
    · exact hleft
  rw [hfind]
  show String.mk ((b ++ ("book.ttl#" ++ f)).data.take b.data.length) = b
  have htake : (b ++ ("book.ttl#" ++ f)).data.take b.data.length = b.data := by
    rw [String.data_append]
    exact List.take_left _ _
  rw [htake]

/-- Claim C6: when the registered instance URL ends in `book.ttl` or in
`book.ttl#fragment` (and the regex matches nowhere earlier in the URL,
which holds for every URL with a single `book.ttl` occurrence),
`findGroupIndex` derives the base URL by stripping that suffix — fragment
included — the group-index URL as base + `groups.ttl`, and the
group-container URL as base + `Group/`. -/
theorem findGroupIndex_derived_urls (kb : Store) (reg inst : Statement)
    (regs insts : List Statement) (b f u : String)
    (hreg : bookRegistrations kb = reg :: regs)
    (hinst : instanceStatements kb reg.subject = inst :: insts)
    (hu : inst.object.value = u)
    (hcase : u = b ++ "book.ttl" ∨ (u = b ++ ("book.ttl#" ++ f) ∧ f.data.all regexDotChar = true))
    (hleft : ∀ j, j < b.data.length → bookMatchAt u.data j = false) :
    PeoplePicker.findGroupIndexAfterFetch kb =
      .ok { bookBaseUrl := b
            groupIndexUrl := b ++ "groups.ttl"
            groupContainerUrl := b ++ "Group/" } := by
  have hstrip : stripBookTtl u = b := by
    rcases hcase with hc | ⟨hc, hf⟩
    · subst hc
      exact stripBookTtl_whole b hleft
    · subst hc
      exact stripBookTtl_fragment b f hf hleft
  simp only [PeoplePicker.findGroupIndexAfterFetch, hreg, hinst, hu, hstrip]

/-- Witness for C6: the spec's own scenario, an address book instance at
`https://example.org/profile/book.ttl` registered in a type index. -/
theorem findGroupIndex_derived_urls_witness :
    (bookRegistrations
        [⟨.namedNode "https://x/i#ab", ns.solid "forClass", ns.vcard "AddressBook",
          .namedNode "https://x/i"⟩,
         ⟨.namedNode "https://x/i#ab", ns.solid "instance",
          .namedNode "https://example.org/profile/book.ttl", .namedNode "https://x/i"⟩] =
      [⟨.namedNode "https://x/i#ab", ns.solid "forClass", ns.vcard "AddressBook",
        .namedNode "https://x/i"⟩]) ∧
    PeoplePicker.findGroupIndexAfterFetch
        [⟨.namedNode "https://x/i#ab", ns.solid "forClass", ns.vcard "AddressBook",
          .namedNode "https://x/i"⟩,
         ⟨.namedNode "https://x/i#ab", ns.solid "instance",
          .namedNode "https://example.org/profile/book.ttl", .namedNode "https://x/i"⟩] =
      .ok { bookBaseUrl := "https://example.org/profile/"
            groupIndexUrl := "https://example.org/profile/" ++ "groups.ttl"
            groupContainerUrl := "https://example.org/profile/" ++ "Group/" } :=
  ⟨by decide,
    findGroupIndex_derived_urls
      [⟨.namedNode "https://x/i#ab", ns.solid "forClass", ns.vcard "AddressBook",
        .namedNode "https://x/i"⟩,
       ⟨.namedNode "https://x/i#ab", ns.solid "instance",
        .namedNode "https://example.org/profile/book.ttl", .namedNode "https://x/i"⟩]
      ⟨.namedNode "https://x/i#ab", ns.solid "forClass", ns.vcard "AddressBook",
        .namedNode "https://x/i"⟩
      ⟨.namedNode "https://x/i#ab", ns.solid "instance",
        .namedNode "https://example.org/profile/book.ttl", .namedNode "https://x/i"⟩
      [] []
      "https://example.org/profile/" "" "https://example.org/profile/book.ttl"
      (by decide) (by decide) (by decide)
      (Or.inl (by decide))
      (by decide)⟩

lemma count_tail_le_erase (st : Statement) (tl : List Statement) (kb : Store)
    (h : ∀ q : Statement, (st :: tl).count q ≤ kb.count q) :
    ∀ q : Statement, tl.count q ≤ (kb.erase st).count q := by
  intro q
  by_cases hq : q = st
  · subst hq
    have hcnt := h q
    rw [List.count_cons_self] at hcnt
    rw [List.count_erase_self]
    omega
  · have hcnt := h q
    rw [List.count_cons_of_ne hq] at hcnt
    rw [List.count_erase_of_ne hq]
    omega

lemma foldl_erase_append_right :
    ∀ (ms : List Statement) (a b : Store), (∀ q : Statement, ms.count q ≤ a.count q) →
      ms.foldl (fun acc st => acc.erase st) (a ++ b) =
        ms.foldl (fun acc st => acc.erase st) a ++ b := by
  intro ms
  induction ms with
  | nil => intro a b _; rfl
  | cons m tl ih =>
    intro a b h
    have hm : m ∈ a := by
      apply List.count_pos_iff.mp
      have := h m
      rw [List.count_cons_self] at this
      omega
    simp only [List.foldl_cons]
    rw [List.erase_append_left _ hm]
    exact ih (a.erase m) b (count_tail_le_erase m tl a h)

lemma count_foldl_erase :
    ∀ (ms : List Statement) (a : Store), (∀ q : Statement, ms.count q ≤ a.count q) →
      ∀ q : Statement, (ms.foldl (fun acc st => acc.erase st) a).count q
        = a.count q - ms.count q := by
  intro ms
  induction ms with
  | nil => intro a _ q; simp
  | cons m tl ih =>
    intro a h q
    simp only [List.foldl_cons]
    rw [ih (a.erase m) (count_tail_le_erase m tl a h)]
    by_cases hq : q = m
    · subst hq
      have hcnt := h q
      rw [List.count_cons_self] at hcnt
      rw [List.count_erase_self, List.count_cons_self]
      omega
    · rw [List.count_erase_of_ne hq, List.count_cons_of_ne hq]

lemma foldl_erase_append (f : Statement → Statement) :
    ∀ (ms : List Statement) (kb : Store), (∀ q : Statement, ms.count q ≤ kb.count q) →
      ms.foldl (fun acc st => acc.erase st ++ [f st]) kb =
        ms.foldl (fun acc st => acc.erase st) kb ++ ms.map f := by
  intro ms
  induction ms with
  | nil => intro kb _; simp
  | cons m tl ih =>
    intro kb h
    have hm : m ∈ kb := by
      apply List.count_pos_iff.mp
      have := h m
      rw [List.count_cons_self] at this
      omega
    have hcounts := count_tail_le_erase m tl kb h
    have hcounts2 : ∀ q : Statement, tl.count q ≤ (kb.erase m ++ [f m]).count q := by
      intro q
      rw [List.count_append]
      have := hcounts q
      omega
    simp only [List.foldl_cons, List.map_cons]
    rw [ih (kb.erase m ++ [f m]) hcounts2,
        foldl_erase_append_right tl (kb.erase m) [f m] hcounts,
        List.append_assoc]
    rfl

lemma counts_statementsMatching_le (kb : Store) (s p o g : Option Term) :
    ∀ q : Statement, (statementsMatching kb s p o g).count q ≤ kb.count q := by
  intro q
  exact (List.filter_sublist kb).count_le q

/-- Claim C4 (counterexample): the store state that `createNewGroup` itself
produces holds two name statements for the group node — one tagged with the
group's own graph, one with the group index.  After `setGroupName` both are
replaced but both remain, so two name statements for the node coexist after
the rename, contradicting the claim that no two can. -/
theorem setGroupName_leaves_two_name_statements :
    (statementsMatching
        (GroupBuilder.setGroupName
          [⟨.namedNode "https://x/Group/ab.ttl#this", ns.vcard "fn",
            .literal "Untitled Group", .namedNode "https://x/Group/ab.ttl"⟩,
           ⟨.namedNode "https://x/Group/ab.ttl#this", ns.vcard "fn",
            .literal "Untitled Group", .namedNode "https://x/groups.ttl"⟩]
          (.namedNode "https://x/Group/ab.ttl#this") "Team")
        (some (.namedNode "https://x/Group/ab.ttl#this")) (some (ns.vcard "fn"))
        none none).length = 2 := by
  decide

/-- Claim C4 (amended): `setGroupName` removes every prior name statement on
the group node and inserts, for each removed statement, one replacement
carrying the new literal value and that statement's own graph tag.  The
name statements afterwards are therefore exactly the prior ones with their
objects rewritten — one per prior statement, so prior name statements in
distinct graphs still yield coexisting name statements (the count is
preserved, not forced to one). -/
theorem setGroupName_replaces_names_preserving_graphs (kb : Store) (groupNode : Term)
    (name : String) :
    statementsMatching (GroupBuilder.setGroupName kb groupNode name)
        (some groupNode) (some (ns.vcard "fn")) none none =
      (statementsMatching kb (some groupNode) (some (ns.vcard "fn")) none none).map
        (fun st => ⟨groupNode, ns.vcard "fn", Term.literal name, st.why⟩) := by
  have hcounts := counts_statementsMatching_le kb (some groupNode) (some (ns.vcard "fn")) none none
  have hfold : GroupBuilder.setGroupName kb groupNode name
      = (statementsMatching kb (some groupNode) (some (ns.vcard "fn")) none none).foldl
          (fun acc st => acc.erase st) kb ++
        (statementsMatching kb (some groupNode) (some (ns.vcard "fn")) none none).map
          (fun st => ⟨groupNode, ns.vcard "fn", Term.literal name, st.why⟩) := by
    unfold GroupBuilder.setGroupName
    exact foldl_erase_append _ _ kb hcounts
  rw [hfold, statementsMatching_append]
  have hzero : statementsMatching
      ((statementsMatching kb (some groupNode) (some (ns.vcard "fn")) none none).foldl
        (fun acc st => acc.erase st) kb)
      (some groupNode) (some (ns.vcard "fn")) none none = [] := by
    rw [List.eq_nil_iff_forall_not_mem]
    intro q hq
    rw [statementsMatching, List.mem_filter] at hq
    obtain ⟨hqmem, hqcond⟩ := hq
    have hcnt := count_foldl_erase
      (statementsMatching kb (some groupNode) (some (ns.vcard "fn")) none none) kb hcounts q
    have hms : (statementsMatching kb (some groupNode) (some (ns.vcard "fn")) none none).count q
        = kb.count q := by
      rw [statementsMatching]
      exact List.count_filter hqcond
    rw [hms] at hcnt
    simp only [Nat.sub_self] at hcnt
    exact (List.count_eq_zero.mp hcnt) hqmem
  rw [hzero]
  have hall : statementsMatching
      ((statementsMatching kb (some groupNode) (some (ns.vcard "fn")) none none).map
        (fun st => ⟨groupNode, ns.vcard "fn", Term.literal name, st.why⟩))
      (some groupNode) (some (ns.vcard "fn")) none none =
      (statementsMatching kb (some groupNode) (some (ns.vcard "fn")) none none).map
        (fun st => ⟨groupNode, ns.vcard "fn", Term.literal name, st.why⟩) := by
    rw [statementsMatching, List.filter_eq_self]
    intro q hqmem
    obtain ⟨st, hstmem, hrfl⟩ := List.mem_map.mp hqmem
    rw [← hrfl]
    simp [termMatches]
  rw [hall, List.nil_append]
